import Mathlib

/-!
Shallow embedding of the repository nodecli-to-api: the FileReader CLI
(init-demo.js) and the Express HTTP wrapper (server.js) that shells out to
it via the package.json script `init-demo` (`node init-demo.js`).

The filesystem is modelled as a finite association of absolute paths to
entries; an entry is either readable text or a file whose read fails with a
message (permissions and similar), matching the three outcomes the CLI can
observe: missing, read error, content.
-/

set_option autoImplicit false

/-- A file visible to `fs`: either readable UTF-8 text, or a file that
exists but whose `fs.readFile` fails with an error message. -/
inductive FileEntry where
  | readable (content : String)
  | unreadable (errMsg : String)
deriving DecidableEq

/-- The filesystem state: a finite map from absolute paths to entries. -/
structure FileSystem where
  entries : List (String × FileEntry)
deriving DecidableEq

/-- Look a path up in the filesystem. -/
def FileSystem.lookup (fs : FileSystem) (p : String) : Option FileEntry :=
  (fs.entries.find? (fun e => e.fst == p)).map Prod.snd

/-- Model of `fs.existsSync(p)`. -/
def FileSystem.existsSync (fs : FileSystem) (p : String) : Bool :=
  (fs.lookup p).isSome

/-- Split a character list at `/` separators; `acc` holds the current
segment in reverse. -/
def splitOnSlashAux : List Char → List Char → List (List Char)
  | acc, [] => [acc.reverse]
  | acc, c :: rest =>
    if c = '/' then acc.reverse :: splitOnSlashAux [] rest
    else splitOnSlashAux (c :: acc) rest

/-- The `/`-separated segments of a path. -/
def splitOnSlash (s : String) : List String :=
  (splitOnSlashAux [] s.data).map String.mk

/-- Rejoin path segments with `/` separators. -/
def joinSegs : List String → String
  | [] => ""
  | [s] => s
  | s :: rest => s ++ "/" ++ joinSegs rest

/-- Whether a path is absolute: it begins with `/`. -/
def isAbsolute (s : String) : Bool :=
  match s.data with
  | c :: _ => c = '/'
  | [] => false

/-- Normalise the `/`-separated segments of an absolute path, dropping
empty segments and `.` and resolving `..`, accumulator in reverse. -/
def resolveSegs : List String → List String → List String
  | acc, [] => acc.reverse
  | acc, seg :: rest =>
    if seg = "" ∨ seg = "." then resolveSegs acc rest
    else if seg = ".." then resolveSegs acc.tail rest
    else resolveSegs (seg :: acc) rest

/-- Model of Node `path.resolve(cwd, p)` for an absolute `cwd` (as
`process.cwd()` always is): an absolute `p` stands alone, otherwise `p` is
joined onto `cwd`; the result is segment-normalised. -/
def resolvePath (cwd p : String) : String :=
  let full := if isAbsolute p then p else cwd ++ "/" ++ p
  "/" ++ joinSegs (resolveSegs [] (splitOnSlash full))

/-- The alphabet of filesystem effects an invocation can perform; the
embedding records each `fs` call the CLI makes, in order. -/
inductive FSAccess where
  | existsCheck (p : String)
  | readAccess (p : String)
  | writeAccess (p : String) (content : String)
deriving DecidableEq

/-- How the filesystem state evolves under one access: checks and reads
leave it unchanged, a write updates the map. -/
def applyAccess (fs : FileSystem) : FSAccess → FileSystem
  | .existsCheck _ => fs
  | .readAccess _ => fs
  | .writeAccess p c => ⟨(p, .readable c) :: fs.entries⟩

/-- Result of one CLI process: exit status and captured streams. -/
structure ProcResult where
  exitCode : Nat
  stdout : String
  stderr : String
deriving DecidableEq

/-- JavaScript truthiness test performed by `if (!options.file)`: the
option is falsy when absent or the empty string. -/
def jsFalsy : Option String → Bool
  | none => true
  | some s => s == ""

/-- Message of the `console.error` in the `!options.file` guard
(init-demo.js line 22); `console.error` appends a newline, and chalk emits
no colour codes when stderr is not a TTY, as when the process is captured
by `exec`. -/
def missingArgMsg : String :=
  "Error: No file path provided. Use -f <path> to specify the file.\n"

/-- Message of the `console.error` in the `existsSync` guard
(init-demo.js line 31), with the resolved path interpolated. -/
def notFoundMsg (filePath : String) : String :=
  "Error: File not found at path \"" ++ filePath ++ "\"\n"

/-- Message of the `console.error` in the `fs.readFile` error branch
(init-demo.js line 38). -/
def readErrorMsg (errMsg : String) : String :=
  "Error reading file: " ++ errMsg ++ "\n"

/-- Model of `fs.readFile(p, 'utf8', cb)`: content on success, the error
message otherwise.  The `none` branch (file vanished between the
`existsSync` check and the read) reports the Node ENOENT text. -/
def readFileUtf8 (fs : FileSystem) (p : String) : Except String String :=
  match fs.lookup p with
  | some (.readable c) => .ok c
  | some (.unreadable m) => .error m
  | none => .error ("ENOENT: no such file or directory, open " ++ p)

/-- The FileReader CLI (init-demo.js), invoked with parsed options
`fileOpt` (the value of `-f, --file <path>`, absent when the flag was not
given) in working directory `cwd` against filesystem `fs`.  Returns the
process result together with the ordered trace of filesystem accesses:
the missing-argument guard fires before any filesystem call; otherwise the
path is resolved, `existsSync` is checked, and on existence the file is
read; `console.log(data)` appends a newline to the content on stdout. -/
def fileReaderRun (fs : FileSystem) (cwd : String) (fileOpt : Option String) :
    ProcResult × List FSAccess :=
  if jsFalsy fileOpt then
    ({ exitCode := 1, stdout := "", stderr := missingArgMsg }, [])
  else
    let filePath := resolvePath cwd (fileOpt.getD "")
    if fs.existsSync filePath then
      match readFileUtf8 fs filePath with
      | .ok data =>
        ({ exitCode := 0, stdout := data ++ "\n", stderr := "" },
         [.existsCheck filePath, .readAccess filePath])
      | .error m =>
        ({ exitCode := 1, stdout := "", stderr := readErrorMsg m },
         [.existsCheck filePath, .readAccess filePath])
    else
      ({ exitCode := 1, stdout := "", stderr := notFoundMsg filePath },
       [.existsCheck filePath])

/-- The observable process result of one FileReader invocation. -/
def fileReader (fs : FileSystem) (cwd : String) (fileOpt : Option String) :
    ProcResult :=
  (fileReaderRun fs cwd fileOpt).fst

/-- Payload of the `data` field of a success envelope (server.js):
`{ output: <captured stdout> }`. -/
structure DataObj where
  output : String
deriving DecidableEq

/-- Payload of the `error` field of an error envelope (server.js):
`{ message, details }`. -/
structure ErrObj where
  message : String
  details : String
deriving DecidableEq

/-- The JSON response envelope built by the handler, with the optional
fields kept as options so that presence and absence are observable. -/
structure EnvelopeObj where
  status : String
  data : Option DataObj
  error : Option ErrObj
deriving DecidableEq

/-- Lower 4 bits of `n` as a hexadecimal digit character. -/
def hexDigitChar (n : Nat) : Char :=
  if n % 16 < 10 then Char.ofNat (48 + n % 16) else Char.ofNat (87 + n % 16)

/-- JSON escaping of one character, as `JSON.stringify` performs it. -/
def jsonEscapeChar (c : Char) : String :=
  if c = '"' then "\\\""
  else if c = '\\' then "\\\\"
  else if c = '\n' then "\\n"
  else if c = '\r' then "\\r"
  else if c = '\t' then "\\t"
  else if c.toNat = 8 then "\\b"
  else if c.toNat = 12 then "\\f"
  else if c.toNat < 32 then
    "\\u00" ++ String.singleton (hexDigitChar (c.toNat / 16)) ++
      String.singleton (hexDigitChar c.toNat)
  else String.singleton c

/-- A JSON string literal for `s`, as `JSON.stringify` renders it. -/
def jsonQuote (s : String) : String :=
  "\"" ++ String.join (s.data.map jsonEscapeChar) ++ "\""

/-- `JSON.stringify` of the envelope object: keys in insertion order
(`status` first), absent optional fields omitted. -/
def renderEnvelope (e : EnvelopeObj) : String :=
  "\x7b\"status\":" ++ jsonQuote e.status ++
    (match e.data with
     | some d => ",\"data\":\x7b\"output\":" ++ jsonQuote d.output ++ "\x7d"
     | none => "") ++
    (match e.error with
     | some er =>
       ",\"error\":\x7b\"message\":" ++ jsonQuote er.message ++
         ",\"details\":" ++ jsonQuote er.details ++ "\x7d"
     | none => "") ++
    "\x7d"

/-- One HTTP response as sent by `res.status(...).json(...)`. -/
structure HttpResponse where
  statusCode : Nat
  envelope : EnvelopeObj
deriving DecidableEq

/-- The serialized body of a response, as the client receives it. -/
def HttpResponse.body (r : HttpResponse) : String :=
  renderEnvelope r.envelope

/-- The `res.status(500).json(...)` call of the error branch
(server.js lines 13-16). -/
def errorResponse (details : String) : HttpResponse :=
  { statusCode := 500,
    envelope :=
      { status := "error", data := none,
        error := some { message := "npm script execution failed",
                        details := details } } }

/-- The `res.status(200).json(...)` call of the success branch
(server.js lines 20-23). -/
def successResponse (output : String) : HttpResponse :=
  { statusCode := 200,
    envelope :=
      { status := "success", data := some { output := output },
        error := none } }

/-- Outcome of the `exec` call as seen by its callback: either the child
could not be launched (`error` set, streams empty or partial), or it ran
to completion with a result; `exec` sets `error` on non-zero exit. -/
inductive ExecOutcome where
  | spawnFailure (stderrText : String)
  | exited (r : ProcResult)
deriving DecidableEq

/-- Whether `exec` passes a non-null `error` to the callback: spawn
failure, or termination with a non-zero exit status. -/
def ExecOutcome.isFailure : ExecOutcome → Bool
  | .spawnFailure _ => true
  | .exited r => r.exitCode != 0

/-- The stderr text the callback receives for an outcome. -/
def ExecOutcome.capturedStderr : ExecOutcome → String
  | .spawnFailure st => st
  | .exited r => r.stderr

/-- The stdout text the callback receives for an outcome. -/
def ExecOutcome.capturedStdout : ExecOutcome → String
  | .spawnFailure _ => ""
  | .exited r => r.stdout

/-- The `exec` callback of the `GET /` handler (server.js lines 10-24):
on `error` it sends exactly one 500 error response and returns; otherwise
it sends exactly one 200 success response carrying captured stdout.  The
list holds the responses sent for the request, in order. -/
def callbackResponses (o : ExecOutcome) : List HttpResponse :=
  if o.isFailure then [errorResponse o.capturedStderr]
  else [successResponse o.capturedStdout]

/-- The child process run by the handler's fixed command
`npm run init-demo --silent -- -f sample.txt`: package.json maps
`init-demo` to `node init-demo.js`, `--silent` suppresses npm's own
output, so the captured streams and exit status are those of the
FileReader invoked on the literal `sample.txt` in the server's working
directory.  The trace of filesystem accesses is returned alongside. -/
def execInitDemoRun (fs : FileSystem) (cwd : String) :
    ProcResult × List FSAccess :=
  fileReaderRun fs cwd (some "sample.txt")

/-- The process result of the handler's child process. -/
def execInitDemo (fs : FileSystem) (cwd : String) : ProcResult :=
  (execInitDemoRun fs cwd).fst

/-- Placeholder default for `List.headD`; never reached, because the
callback always sends exactly one response. -/
def fallbackResponse : HttpResponse :=
  errorResponse ""

/-- Serving one `GET /` request against filesystem `fs` in working
directory `cwd`, when the child process launches: the response sent, and
the filesystem state after the request (the child's accesses applied in
order). -/
def serveGet (fs : FileSystem) (cwd : String) : HttpResponse × FileSystem :=
  ((callbackResponses (.exited (execInitDemo fs cwd))).headD fallbackResponse,
   ((execInitDemoRun fs cwd).snd).foldl applyAccess fs)

/-- The response to one `GET /` request. -/
def handleGet (fs : FileSystem) (cwd : String) : HttpResponse :=
  (serveGet fs cwd).fst

/-- Client-supplied content of an inbound HTTP request: headers, query
string parameters and body.  The route accepts no parameters. -/
structure Request where
  headers : List (String × String)
  query : List (String × String)
  body : String
deriving DecidableEq

/-- The `GET /` route handler `(req, res) => ...` (server.js line 8): the
request object is never consulted; the fixed command runs and its outcome
alone determines the response. -/
def handleRequest (req : Request) (fs : FileSystem) (cwd : String) :
    HttpResponse :=
  handleGet fs cwd

/-- A string with a nonempty right part appended is nonempty. -/
theorem append_right_ne_empty (s t : String) (ht : t ≠ "") : s ++ t ≠ "" := by
  intro h
  apply ht
  have h2 : (s ++ t).data = ("" : String).data := congrArg String.data h
  simp at h2
  cases t
  simp_all

/-- Fixture: a directory `/demo` holding a readable file `a.txt` whose
content is the two characters `hi` followed by a newline. -/
def fsC1 : FileSystem := ⟨[("/demo/a.txt", FileEntry.readable "hi\n")]⟩

/-- Fixture: the shipped layout, `sample.txt` in the working directory
`/usr/src/app` with the documented sample content. -/
def fsSample : FileSystem :=
  ⟨[("/usr/src/app/sample.txt",
     FileEntry.readable "This is a sample demo file.\n")]⟩

/-- Fixture: an empty filesystem; every path is missing. -/
def fsEmpty : FileSystem := ⟨[]⟩

/-- C1 counterexample: on an existing readable file whose content is
`hi\n`, FileReader exits 0 but its stdout is not the verbatim content —
`console.log` appends a newline, so a character is added. -/
theorem C1_stdout_not_verbatim :
    (fileReader fsC1 "/demo" (some "a.txt")).exitCode = 0 ∧
    (fileReader fsC1 "/demo" (some "a.txt")).stdout ≠ "hi\n" := by
  constructor
  · rfl
  · decide

/-- C1 (amended): for every existing readable file, FileReader with
`-f P` exits 0, writes the file content followed by one extra newline
(appended by `console.log`) to stdout, and writes nothing to stderr. -/
theorem C1_read_success_appends_newline (fs : FileSystem) (cwd p c : String)
    (hp : p ≠ "")
    (hc : fs.lookup (resolvePath cwd p) = some (FileEntry.readable c)) :
    (fileReader fs cwd (some p)).exitCode = 0 ∧
    (fileReader fs cwd (some p)).stdout = c ++ "\n" ∧
    (fileReader fs cwd (some p)).stderr = "" := by
  simp [fileReader, fileReaderRun, jsFalsy, hp, FileSystem.existsSync, hc,
    readFileUtf8]

/-- C1 witness: the amended statement at the concrete fixture. -/
theorem C1_read_success_appends_newline_witness :
    (fileReader fsC1 "/demo" (some "a.txt")).exitCode = 0 ∧
    (fileReader fsC1 "/demo" (some "a.txt")).stdout = "hi\n" ++ "\n" ∧
    (fileReader fsC1 "/demo" (some "a.txt")).stderr = "" :=
  C1_read_success_appends_newline fsC1 "/demo" "a.txt" "hi\n" (by decide)
    (by decide)

/-- C4: for every nonempty path whose resolved absolute form does not
exist, FileReader with `-f P` exits non-zero, writes nothing to stdout,
and its stderr message contains the resolved absolute path. -/
theorem C4_missing_path_error (fs : FileSystem) (cwd p : String)
    (hp : p ≠ "")
    (hmiss : fs.existsSync (resolvePath cwd p) = false) :
    (fileReader fs cwd (some p)).exitCode ≠ 0 ∧
    (fileReader fs cwd (some p)).stdout = "" ∧
    ∃ pre post,
      (fileReader fs cwd (some p)).stderr = pre ++ resolvePath cwd p ++ post := by
  have hres : fileReader fs cwd (some p) =
      { exitCode := 1, stdout := "",
        stderr := notFoundMsg (resolvePath cwd p) } := by
    simp [fileReader, fileReaderRun, jsFalsy, hp, hmiss]
  refine ⟨by simp [hres], by simp [hres],
    "Error: File not found at path \"", "\"\n", ?_⟩
  simp [hres, notFoundMsg]

/-- C4 witness: the statement at a concrete missing path. -/
theorem C4_missing_path_error_witness :
    (fileReader fsEmpty "/usr/src/app" (some "missing.txt")).exitCode ≠ 0 ∧
    (fileReader fsEmpty "/usr/src/app" (some "missing.txt")).stdout = "" ∧
    ∃ pre post,
      (fileReader fsEmpty "/usr/src/app" (some "missing.txt")).stderr =
        pre ++ resolvePath "/usr/src/app" "missing.txt" ++ post :=
  C4_missing_path_error fsEmpty "/usr/src/app" "missing.txt" (by decide)
    (by decide)

/-- C5: without the `-f`/`--file` flag, FileReader exits non-zero with the
usage message on stderr and its filesystem access trace is empty: no path
resolution result is consulted, no existence check, no read. -/
theorem C5_missing_flag_no_fs_access (fs : FileSystem) (cwd : String) :
    (fileReaderRun fs cwd none).fst.exitCode = 1 ∧
    (fileReaderRun fs cwd none).fst.stderr = missingArgMsg ∧
    (fileReaderRun fs cwd none).snd = [] :=
  ⟨rfl, rfl, rfl⟩

/-- C6: every FileReader invocation exits with status 0 or 1; status 0
exactly when it succeeded (stderr empty, content on stdout), status 1
exactly when it failed (stdout empty, message on stderr). -/
theorem C6_exit_codes (fs : FileSystem) (cwd : String)
    (fileOpt : Option String) :
    ((fileReader fs cwd fileOpt).exitCode = 0 ∨
      (fileReader fs cwd fileOpt).exitCode = 1) ∧
    ((fileReader fs cwd fileOpt).exitCode = 0 ↔
      (fileReader fs cwd fileOpt).stderr = "") ∧
    ((fileReader fs cwd fileOpt).exitCode = 1 ↔
      (fileReader fs cwd fileOpt).stdout = "") := by
  unfold fileReader fileReaderRun
  dsimp only
  split
  · refine ⟨Or.inr rfl, ?_, ?_⟩ <;>
      simp [missingArgMsg]
  · split
    · split
      · refine ⟨Or.inl rfl, by simp, ?_⟩
        simp [append_right_ne_empty]
      · refine ⟨Or.inr rfl, ?_, by simp⟩
        simp [readErrorMsg, append_right_ne_empty]
    · refine ⟨Or.inr rfl, ?_, by simp⟩
      simp [notFoundMsg, append_right_ne_empty]

/-- C8: `-f` with an empty-string path takes the same MissingArgument
branch as omitting the flag: the runs are identical, with exit status 1
and the usage message on stderr. -/
theorem C8_empty_path_is_missing_argument (fs : FileSystem) (cwd : String) :
    fileReaderRun fs cwd (some "") = fileReaderRun fs cwd none ∧
    (fileReaderRun fs cwd (some "")).fst.exitCode = 1 ∧
    (fileReaderRun fs cwd (some "")).fst.stderr = missingArgMsg := by
  refine ⟨?_, ?_, ?_⟩ <;> rfl

/-- C10: the response is independent of all client-supplied request
content: any two requests against the same filesystem state receive the
same response. -/
theorem C10_response_request_independent (r1 r2 : Request)
    (fs : FileSystem) (cwd : String) :
    handleRequest r1 fs cwd = handleRequest r2 fs cwd :=
  rfl

/-- C2 counterexample: with the sample file holding exactly
`This is a sample demo file.\n`, the `GET /` body is not the claimed
envelope whose output field is the exact file content — the captured
stdout carries the extra newline appended by `console.log`. -/
theorem C2_body_not_exact_content :
    (handleGet fsSample "/usr/src/app").body ≠
      "\x7b\"status\":\"success\",\"data\":\x7b\"output\":\"This is a sample demo file.\\n\"\x7d\x7d" := by
  decide

/-- C2 (amended): with the sample file holding exactly
`This is a sample demo file.\n`, `GET /` returns HTTP 200 and the body is
the success envelope whose output field is the file content followed by
one extra newline. -/
theorem C2_sample_body_has_extra_newline :
    (handleGet fsSample "/usr/src/app").statusCode = 200 ∧
    (handleGet fsSample "/usr/src/app").body =
      "\x7b\"status\":\"success\",\"data\":\x7b\"output\":\"This is a sample demo file.\\n\\n\"\x7d\x7d" := by
  exact ⟨by decide, by decide⟩

/-- C3 counterexample: at a concrete failure (sample file missing) the
handler does answer 500, but the envelope's error object is not the
claimed one — its message is `npm script execution failed`, not
`script execution failed`. -/
theorem C3_message_not_script_execution_failed :
    (handleGet fsEmpty "/usr/src/app").statusCode = 500 ∧
    (handleGet fsEmpty "/usr/src/app").envelope.error ≠
      some { message := "script execution failed",
             details := (execInitDemo fsEmpty "/usr/src/app").stderr } ∧
    (handleGet fsEmpty "/usr/src/app").envelope.error =
      some { message := "npm script execution failed",
             details := (execInitDemo fsEmpty "/usr/src/app").stderr } := by
  refine ⟨by decide, by decide, by decide⟩

/-- C3 (amended): every failure outcome — spawn failure or any non-zero
exit (MissingArgument, NotFound, ReadError) — gets exactly one HTTP 500
response with status `error`, message `npm script execution failed` and
the captured stderr as details; message and status code are identical for
all failure kinds. -/
theorem C3_failures_uniform_500 (o : ExecOutcome)
    (h : o.isFailure = true) :
    callbackResponses o =
      [{ statusCode := 500,
         envelope :=
           { status := "error", data := none,
             error := some { message := "npm script execution failed",
                             details := o.capturedStderr } } }] := by
  simp [callbackResponses, h, errorResponse]

/-- C3 witness: the amended statement at a concrete non-zero exit. -/
theorem C3_failures_uniform_500_witness :
    callbackResponses
        (ExecOutcome.exited { exitCode := 1, stdout := "", stderr := "boom" }) =
      [{ statusCode := 500,
         envelope :=
           { status := "error", data := none,
             error := some { message := "npm script execution failed",
                             details := "boom" } } }] :=
  C3_failures_uniform_500
    (ExecOutcome.exited { exitCode := 1, stdout := "", stderr := "boom" })
    (by decide)

/-- The FileReader access trace never mutates the filesystem: folding it
over any starting state returns that state. -/
theorem fileReaderRun_reads_only (fs : FileSystem) (cwd : String)
    (o : Option String) :
    ((fileReaderRun fs cwd o).snd).foldl applyAccess fs = fs := by
  unfold fileReaderRun
  dsimp only
  split
  · rfl
  · split
    · split
      · simp [applyAccess]
      · simp [applyAccess]
    · simp [applyAccess]

/-- C7: serving `GET /` leaves the filesystem state unchanged (the child
only checks existence and reads), and a repeated request against the
state left by the first returns the identical response. -/
theorem C7_get_idempotent_pure (fs : FileSystem) (cwd : String) :
    (serveGet fs cwd).snd = fs ∧
    (serveGet ((serveGet fs cwd).snd) cwd).fst = (serveGet fs cwd).fst := by
  have hsnd : (serveGet fs cwd).snd = fs :=
    fileReaderRun_reads_only fs cwd (some "sample.txt")
  exact ⟨hsnd, by rw [hsnd]⟩

/-- C9: for every exec outcome the callback sends exactly one response,
and its envelope satisfies the exclusivity invariant: status `success`
exactly when the data field is present and the error field absent, status
`error` exactly when the error field is present and the data field
absent. -/
theorem C9_envelope_exclusivity (o : ExecOutcome) :
    (callbackResponses o).length = 1 ∧
    ∀ resp ∈ callbackResponses o,
      ((resp.envelope.status = "success") ↔
        (resp.envelope.data.isSome = true ∧ resp.envelope.error = none)) ∧
      ((resp.envelope.status = "error") ↔
        (resp.envelope.error.isSome = true ∧ resp.envelope.data = none)) := by
  unfold callbackResponses
  split
  · refine ⟨rfl, ?_⟩
    intro resp hresp
    simp only [List.mem_singleton] at hresp
    subst hresp
    constructor <;> simp [errorResponse]
  · refine ⟨rfl, ?_⟩
    intro resp hresp
    simp only [List.mem_singleton] at hresp
    subst hresp
    constructor <;> simp [successResponse]
